import Mathlib

/-!
Verification of the layered cloud-configuration resolver of the
clientconfig package (GetCloudFromYAML / AuthOptions and helpers).

The resolver's entry points (`GetCloudFromYAML`, `AuthOptions`,
`determineIdentityAPI`, `v2auth`, `v3auth`, `setDomainIfNeeded`,
`isProjectScoped`, `isApplicationCredential`, the three `Load*CloudsYAML`
functions) are translated directly from the source file.  Supporting
declarations that the source file only calls (the `Cloud` / `AuthInfo`
records, `mergeClouds`, `defaultIfEmpty`, the `env.Getenv` environment
reader, the `FindAndRead*` file readers, and the external SDK's
`gophercloud.AuthOptions` / `gophercloud.AuthScope` records) are modelled
from the specification, as noted on each such definition.

File reading and YAML unmarshalling are modelled abstractly: each of the
three documents is an input of type `FindRes`, which is either a read
failure (file-not-found or another I/O error) or a content that either
unmarshals to a cloud map or is malformed.  The process environment is an
input of type `Env` (a total lookup function; unset variables read "").
-/

/-- Modelled from the spec: the `AuthInfo` record (authentication material:
URL, token, username/password, user/project identifiers, domain
identifiers, application-credential triple, system scope, reauth flag).
The record itself is not in the provided sources; its fields are those the
source file reads and writes.  Zero value: all strings empty, flags false. -/
structure AuthInfo where
  AuthURL : String := ""
  Token : String := ""
  Username : String := ""
  UserID : String := ""
  Password : String := ""
  ProjectID : String := ""
  ProjectName : String := ""
  DomainID : String := ""
  DomainName : String := ""
  DefaultDomain : String := ""
  ProjectDomainID : String := ""
  ProjectDomainName : String := ""
  UserDomainID : String := ""
  UserDomainName : String := ""
  ApplicationCredentialID : String := ""
  ApplicationCredentialName : String := ""
  ApplicationCredentialSecret : String := ""
  SystemScope : String := ""
  AllowReauth : Bool := false
  deriving DecidableEq, Repr

/-- Modelled from the spec: a named region override ("named region with a
nested value set that, when selected, overrides the parent cloud's
settings").  The value set has the shape of a full Cloud record, since the
source merges it with the cloud via mergeClouds; the type is parametrised
so that it can appear inside the (recursive) Cloud type. -/
structure RegionDef (C : Type) where
  Name : String := ""
  Values : C

/-- Modelled from the spec: the fields of the `Cloud` record (name, profile
reference, region list, endpoint-type/interface, TLS verification flag,
CA/client cert and key paths, identity/volume API version overrides, and an
embedded AuthInfo).  The record itself is not in the provided sources; the
fields are those the source file reads and writes.  Zero value: empty
strings, empty region list, absent AuthInfo, absent Verify. -/
structure CloudData (C : Type) where
  Cloud : String := ""
  Profile : String := ""
  AuthInfo : Option AuthInfo := none
  AuthType : String := ""
  RegionName : String := ""
  Regions : List (RegionDef C) := []
  EndpointType : String := ""
  Interface : String := ""
  IdentityAPIVersion : String := ""
  VolumeAPIVersion : String := ""
  Verify : Option Bool := none
  CACertFile : String := ""
  ClientCertFile : String := ""
  ClientKeyFile : String := ""

/-- The Cloud record, tied recursively through its region list
(a region's value set is itself Cloud-shaped). -/
inductive Cloud where
  | mk : CloudData Cloud → Cloud

/-- Projection to the field record of a Cloud. -/
def Cloud.data : Cloud → CloudData Cloud
  | .mk d => d

/-- The zero Cloud value (Go: `Cloud{}` / `new(Cloud)`). -/
def emptyCloud : Cloud := Cloud.mk {}

/-- Whether a Cloud equals the zero Cloud value, field by field (Go:
`reflect.DeepEqual((Cloud{}), c)`).  The nil/empty distinction of Go
slices and maps is not modelled: a zero region list counts as zero. -/
def Cloud.isZero (c : Cloud) : Bool :=
  (Cloud.data c).Cloud == "" && (Cloud.data c).Profile == "" &&
  (Cloud.data c).AuthInfo.isNone && (Cloud.data c).AuthType == "" &&
  (Cloud.data c).RegionName == "" && (Cloud.data c).Regions.isEmpty &&
  (Cloud.data c).EndpointType == "" && (Cloud.data c).Interface == "" &&
  (Cloud.data c).IdentityAPIVersion == "" && (Cloud.data c).VolumeAPIVersion == "" &&
  (Cloud.data c).Verify.isNone && (Cloud.data c).CACertFile == "" &&
  (Cloud.data c).ClientCertFile == "" && (Cloud.data c).ClientKeyFile == ""

/-- Modelled from the spec: the external SDK's authentication scope record
(project, domain, or system authorization boundary).  Part of the output
boundary; only the fields the source file writes are modelled. -/
structure gophercloud.AuthScope where
  ProjectID : String := ""
  ProjectName : String := ""
  DomainID : String := ""
  DomainName : String := ""
  System : Bool := false
  deriving DecidableEq, Repr

/-- Modelled from the spec: the external SDK's authentication options record
(endpoint, credentials, scope) that the resolver produces.  `Scope` models
the `*AuthScope` pointer field: `none` when never assigned (the v2 path). -/
structure gophercloud.AuthOptions where
  IdentityEndpoint : String := ""
  TokenID : String := ""
  Username : String := ""
  UserID : String := ""
  Password : String := ""
  TenantID : String := ""
  TenantName : String := ""
  DomainID : String := ""
  DomainName : String := ""
  ApplicationCredentialID : String := ""
  ApplicationCredentialName : String := ""
  ApplicationCredentialSecret : String := ""
  AllowReauth : Bool := false
  Scope : Option gophercloud.AuthScope := none
  deriving DecidableEq, Repr

/-- Options to customise the way a client is configured (source: ClientOpts).
The HTTPClient and YAMLOpts fields are not modelled: the first never
influences resolution, the second is modelled by passing the three document
inputs explicitly.  The Go field EnvPrefix is here named envPfx.  A nil
`*ClientOpts` in Go is replaced by `new(ClientOpts)` on entry, i.e. by the
default value of this record. -/
structure ClientOpts where
  Cloud : String := ""
  envPfx : String := ""
  AuthType : String := ""
  AuthInfo : Option AuthInfo := none
  RegionName : String := ""
  EndpointType : String := ""
  deriving Repr

/-- Modelled from the spec: the process environment, an immutable lookup
from variable names to values; variables that are not set read "". -/
def Env : Type := String → String

/-- Modelled from the spec: env.Getenv reads one environment variable. -/
def Getenv (e : Env) (s : String) : String := e s

/-- An environment holding exactly the given bindings. -/
def envOf (l : List (String × String)) : Env :=
  fun k => (List.lookup k l).getD ""

/-- The empty environment (no variables set). -/
def envEmpty : Env := fun _ => ""

/-- Whether one character list starts with another. -/
def chPre : List Char → List Char → Bool
  | [], _ => true
  | _ :: _, [] => false
  | a :: as, b :: bs => a == b && chPre as bs

/-- Whether one character list occurs inside another. -/
def chSub (n : List Char) : List Char → Bool
  | [] => chPre n []
  | h :: t => chPre n (h :: t) || chSub n t

/-- Substring containment of strings (Go: strings.Contains; an empty
substring is contained in every string). -/
def strContains (s sub : String) : Bool := chSub sub.data s.data

/-- AuthPassword defines an unknown version of the password. -/
def AuthPassword : String := "password"

/-- AuthToken defines an unknown version of the token. -/
def AuthToken : String := "token"

/-- AuthV2Password defines version 2 of the password. -/
def AuthV2Password : String := "v2password"

/-- AuthV2Token defines version 2 of the token. -/
def AuthV2Token : String := "v2token"

/-- AuthV3Password defines version 3 of the password. -/
def AuthV3Password : String := "v3password"

/-- AuthV3Token defines version 3 of the token. -/
def AuthV3Token : String := "v3token"

/-- AuthV3ApplicationCredential defines version 3 of the application
credential. -/
def AuthV3ApplicationCredential : String := "v3applicationcredential"

/-- Modelled from the spec: defaultIfEmpty is not in the provided sources;
the spec says the profile name is the "explicit profile field, or falls
back to the cloud field", so this returns its first argument when
non-empty and its second argument otherwise. -/
def defaultIfEmpty (value defaultValue : String) : String :=
  if value ≠ "" then value else defaultValue

/-- One field of the merge: the first (override) argument when it is
non-zero, the second argument otherwise. -/
def strOv (hi lo : String) : String := if hi ≠ "" then hi else lo

/-- One optional field of the merge: the first (override) argument when it
is present, the second argument otherwise. -/
def optOv {α : Type} (hi lo : Option α) : Option α :=
  match hi with
  | some v => some v
  | none => lo

/-- Modelled from the spec: merge of two AuthInfo records, field by field;
the spec requires the merge to be "defined for every field of
Cloud/AuthInfo".  Non-zero fields of the override (first) argument win;
zero fields retain the other argument's value (for the boolean reauth
flag, zero is false). -/
def mergeAuthInfo (hi lo : AuthInfo) : AuthInfo where
  AuthURL := strOv hi.AuthURL lo.AuthURL
  Token := strOv hi.Token lo.Token
  Username := strOv hi.Username lo.Username
  UserID := strOv hi.UserID lo.UserID
  Password := strOv hi.Password lo.Password
  ProjectID := strOv hi.ProjectID lo.ProjectID
  ProjectName := strOv hi.ProjectName lo.ProjectName
  DomainID := strOv hi.DomainID lo.DomainID
  DomainName := strOv hi.DomainName lo.DomainName
  DefaultDomain := strOv hi.DefaultDomain lo.DefaultDomain
  ProjectDomainID := strOv hi.ProjectDomainID lo.ProjectDomainID
  ProjectDomainName := strOv hi.ProjectDomainName lo.ProjectDomainName
  UserDomainID := strOv hi.UserDomainID lo.UserDomainID
  UserDomainName := strOv hi.UserDomainName lo.UserDomainName
  ApplicationCredentialID := strOv hi.ApplicationCredentialID lo.ApplicationCredentialID
  ApplicationCredentialName := strOv hi.ApplicationCredentialName lo.ApplicationCredentialName
  ApplicationCredentialSecret := strOv hi.ApplicationCredentialSecret lo.ApplicationCredentialSecret
  SystemScope := strOv hi.SystemScope lo.SystemScope
  AllowReauth := hi.AllowReauth || lo.AllowReauth

/-- Merge of the optional embedded AuthInfo: an absent side contributes
nothing, two present sides merge field by field. -/
def mergeAuthInfoOpt : Option AuthInfo → Option AuthInfo → Option AuthInfo
  | none, lo => lo
  | some h, none => some h
  | some h, some l => some (mergeAuthInfo h l)

/-- Modelled from the spec: mergeClouds is not in the provided sources.
The spec fixes the merge to be field-by-field, one argument's non-zero
fields overriding the other's, and its descriptions of all three call
sites place the winning argument first: at mergeClouds(cloud, publicCloud)
"values already present on the selected cloud take precedence over the
profile's values (profile fills gaps only)"; at
mergeClouds(secureCloud, cloud) "the secure values take precedence over
existing values"; at mergeClouds(v.Values, cloud) "region values win".
So the first (override) argument's non-zero fields win and its zero fields
retain the second argument's values; the embedded AuthInfo is merged
field by field; the region list, a slice, is taken wholesale from the
override side when non-empty. -/
def mergeClouds (hi lo : Cloud) : Cloud :=
  Cloud.mk {
    Cloud := strOv (Cloud.data hi).Cloud (Cloud.data lo).Cloud
    Profile := strOv (Cloud.data hi).Profile (Cloud.data lo).Profile
    AuthInfo := mergeAuthInfoOpt (Cloud.data hi).AuthInfo (Cloud.data lo).AuthInfo
    AuthType := strOv (Cloud.data hi).AuthType (Cloud.data lo).AuthType
    RegionName := strOv (Cloud.data hi).RegionName (Cloud.data lo).RegionName
    Regions := if (Cloud.data hi).Regions.isEmpty then (Cloud.data lo).Regions
               else (Cloud.data hi).Regions
    EndpointType := strOv (Cloud.data hi).EndpointType (Cloud.data lo).EndpointType
    Interface := strOv (Cloud.data hi).Interface (Cloud.data lo).Interface
    IdentityAPIVersion := strOv (Cloud.data hi).IdentityAPIVersion (Cloud.data lo).IdentityAPIVersion
    VolumeAPIVersion := strOv (Cloud.data hi).VolumeAPIVersion (Cloud.data lo).VolumeAPIVersion
    Verify := optOv (Cloud.data hi).Verify (Cloud.data lo).Verify
    CACertFile := strOv (Cloud.data hi).CACertFile (Cloud.data lo).CACertFile
    ClientCertFile := strOv (Cloud.data hi).ClientCertFile (Cloud.data lo).ClientCertFile
    ClientKeyFile := strOv (Cloud.data hi).ClientKeyFile (Cloud.data lo).ClientKeyFile }

/-- A clouds mapping (cloud name to Cloud).  `none` models Go's nil map
(the zero value of the Clouds record's map field), `some l` a non-nil map
with the given entries; looking up in a nil map misses and its length
is zero. -/
def CloudMap : Type := Option (List (String × Cloud))

/-- Map lookup (Go: `clouds[name]`). -/
def mapLookup (m : CloudMap) (k : String) : Option Cloud :=
  List.lookup k (Option.getD m [])

/-- Number of entries (Go: `len(clouds)`). -/
def mapLen (m : CloudMap) : Nat := (Option.getD m []).length

/-- A read failure of one of the YAML files: the file does not exist
(Go: an error matching os.ErrNotExist), or another I/O error. -/
inductive FileErr where
  | notExist
  | ioError
  deriving DecidableEq, Repr

/-- Modelled from the spec: the content of a found file, abstracted to its
unmarshalling outcome — either the cloud map the YAML document denotes, or
a malformed document that yaml.Unmarshal rejects. -/
inductive YamlDoc where
  | parsed (m : CloudMap)
  | malformed

/-- Modelled from the spec: the outcome of FindAndRead*CloudsYAML for one
of the three documents (not in the provided sources): a read failure, or
the file's content. -/
def FindRes : Type := Except FileErr YamlDoc

/-- A failure of one of the Load*CloudsYAML functions: an underlying read
failure, or a failed unmarshal ("failed to unmarshal yaml"). -/
inductive LoadErr where
  | fileErr (e : FileErr)
  | parseErr
  deriving DecidableEq, Repr

/-- The errors the resolver can return, one constructor per distinct
error construction in the source. -/
inductive Err where
  | loadPrimary (e : LoadErr)
  | cloudNotFound (name : String)
  | loadPublic (e : LoadErr)
  | profileNotFound (name : String)
  | loadSecure (e : LoadErr)
  | couldNotFindCloud (name : String)
  | missingInput (argument : String)
  | unableToBuildAuthOptions
  deriving DecidableEq, Repr

/-- LoadCloudsYAML loads a clouds.yaml file and returns the full config.
Any read failure (including file-not-found) or unmarshal failure is
returned as an error. -/
def LoadCloudsYAML (r : FindRes) : Except LoadErr CloudMap :=
  match r with
  | .error e => .error (.fileErr e)
  | .ok .malformed => .error .parseErr
  | .ok (.parsed m) => .ok m

/-- LoadSecureCloudsYAML loads a secure.yaml file and returns the full
config.  secure.yaml is optional, so a file-not-found read failure is
ignored and the zero config (a nil map) is returned; other read failures
and unmarshal failures are returned as errors. -/
def LoadSecureCloudsYAML (r : FindRes) : Except LoadErr CloudMap :=
  match r with
  | .error .notExist => .ok none
  | .error .ioError => .error (.fileErr .ioError)
  | .ok .malformed => .error .parseErr
  | .ok (.parsed m) => .ok m

/-- LoadPublicCloudsYAML loads a clouds-public.yaml file and returns the
full config.  clouds-public.yaml is optional, so a file-not-found read
failure is ignored and the zero config (a nil map) is returned; other read
failures and unmarshal failures are returned as errors. -/
def LoadPublicCloudsYAML (r : FindRes) : Except LoadErr CloudMap :=
  match r with
  | .error .notExist => .ok none
  | .error .ioError => .error (.fileErr .ioError)
  | .ok .malformed => .error .parseErr
  | .ok (.parsed m) => .ok m

/-- The effective environment variable prefix: the EnvPrefix option when
set, the default "OS_" otherwise (the pattern repeated at every entry
point of the source). -/
def envPfxOf (opts : ClientOpts) : String :=
  if opts.envPfx ≠ "" then opts.envPfx else "OS_"

/-- Which cloud to use (GetCloudFromYAML, first step): a cloud name
explicitly set in opts takes precedence; otherwise the name is read from
the CLOUD environment variable under the effective prefix (and stays ""
when that variable is empty). -/
def determineCloudName (opts : ClientOpts) (e : Env) : String :=
  if opts.Cloud ≠ "" then opts.Cloud
  else Getenv e (envPfxOf opts ++ "CLOUD")

/-- Entry selection from the primary document (GetCloudFromYAML): a
non-empty name must exist in the map, else the "cloud does not exist in
clouds.yaml" error; with no name, a single-entry document selects its
sole entry, and otherwise no entry is selected yet. -/
def selectFromPrimary (clouds : CloudMap) (cloudName : String) :
    Except Err (Option Cloud) :=
  if cloudName ≠ "" then
    match mapLookup clouds cloudName with
    | none => .error (.cloudNotFound cloudName)
    | some v => .ok (some v)
  else if mapLen clouds = 1 then
    .ok ((Option.getD clouds []).head?.map (fun kv => kv.2))
  else
    .ok none

/-- The profile name of a selected cloud: the explicit Profile field,
falling back to the Cloud field. -/
def profileNameOf (c : Cloud) : String :=
  defaultIfEmpty (Cloud.data c).Profile (Cloud.data c).Cloud

/-- The public/vendor profile step of GetCloudFromYAML: when an entry was
selected and it declares a profile name, load the public clouds document
(propagating its failure), look the profile up (a miss is the "does not
exist in clouds-public.yaml" error) and merge, the selected cloud's
values taking precedence. -/
def applyProfile (pub : FindRes) (cloud : Option Cloud) :
    Except Err (Option Cloud) :=
  match cloud with
  | none => .ok none
  | some c =>
    let profileName := profileNameOf c
    if profileName ≠ "" then
      match LoadPublicCloudsYAML pub with
      | .error err => .error (.loadPublic err)
      | .ok publicClouds =>
        match mapLookup publicClouds profileName with
        | none => .error (.profileNotFound profileName)
        | some publicCloud => .ok (some (mergeClouds c publicCloud))
    else .ok (some c)

/-- The comparison `reflect.DeepEqual(cloud, secureCloud)` of the source,
where cloud is a *Cloud and secureCloud a Cloud: reflect.DeepEqual always
reports false when the two dynamic types differ, so this comparison is
constantly false whatever the two values. -/
def deepEqualPtrVal (_cloud : Option Cloud) (_secureCloud : Cloud) : Bool :=
  false

/-- The secure overlay step of GetCloudFromYAML: load the secure document
(propagating its failure); when the resulting map is nil, skip the whole
step.  Otherwise, first, when no entry was selected, no name was given and
the secure map has a single entry, select that entry; then look the name
up in the secure map, failing with "Could not find cloud" when the lookup
misses and no entry is selected; finally, when the secure entry has
content and differs from the selected entry, merge, the secure values
taking precedence. -/
def applySecure (s : FindRes) (cloudName : String) (cloud : Option Cloud) :
    Except Err (Option Cloud) :=
  match LoadSecureCloudsYAML s with
  | .error err => .error (.loadSecure err)
  | .ok secureClouds =>
    match secureClouds with
    | none => .ok cloud
    | some secList =>
      let cloud1 : Option Cloud :=
        if cloud.isNone && cloudName == "" && secList.length == 1 then
          secList.head?.map (fun kv => kv.2)
        else cloud
      let secureCloudFound := List.lookup cloudName secList
      if secureCloudFound.isNone && cloud1.isNone then
        .error (.couldNotFindCloud cloudName)
      else
        let secureCloud := Option.getD secureCloudFound emptyCloud
        if !(Cloud.isZero secureCloud) && !(deepEqualPtrVal cloud1 secureCloud) then
          .ok (some (mergeClouds secureCloud (Option.getD cloud1 emptyCloud)))
        else
          .ok cloud1

/-- The endpoint-type normalisation at the end of GetCloudFromYAML: when
only the legacy Interface field is set (and EndpointType is not), copy it
to EndpointType; in every case clear Interface afterwards. -/
def normalizeInterface (c : Cloud) : Cloud :=
  let d := Cloud.data c
  let d1 := if d.Interface ≠ "" ∧ d.EndpointType = "" then
      { d with EndpointType := d.Interface }
    else d
  Cloud.mk { d1 with Interface := "" }

/-- The final steps of GetCloudFromYAML: fail with "Could not find cloud"
when no entry was selected; default the TLS Verify flag to true when
unset; merge the per-region value overrides of the first region matching
the requested region name (region values win); normalise the legacy
Interface field. -/
def finalizeCloud (opts : ClientOpts) (cloudName : String)
    (cloud : Option Cloud) : Except Err Cloud :=
  match cloud with
  | none => .error (.couldNotFindCloud cloudName)
  | some c0 =>
    let c1 := if (Cloud.data c0).Verify.isNone then
        Cloud.mk { Cloud.data c0 with Verify := some true }
      else c0
    let c2 := if opts.RegionName ≠ "" then
        match (Cloud.data c1).Regions.find? (fun v => opts.RegionName == v.Name) with
        | some v => mergeClouds v.Values c1
        | none => c1
      else c1
    .ok (normalizeInterface c2)

/-- The tail of GetCloudFromYAML after an entry has been selected from the
primary document: the profile step, the secure overlay step, and the
final defaulting and normalisation steps, in the source's order. -/
def afterSelect (opts : ClientOpts) (s pub : FindRes) (cloudName : String)
    (cloud : Option Cloud) : Except Err Cloud :=
  match applyProfile pub cloud with
  | .error err => .error err
  | .ok cloud2 =>
    match applySecure s cloudName cloud2 with
    | .error err => .error err
    | .ok cloud3 => finalizeCloud opts cloudName cloud3

/-- GetCloudFromYAML returns a cloud entry from a clouds.yaml file.  The
three document inputs stand for what the default YAMLOpts loader would
read for clouds.yaml, secure.yaml and clouds-public.yaml respectively. -/
def GetCloudFromYAML (opts : ClientOpts) (e : Env) (p s pub : FindRes) :
    Except Err Cloud :=
  match LoadCloudsYAML p with
  | .error err => .error (.loadPrimary err)
  | .ok clouds =>
    let cloudName := determineCloudName opts e
    match selectFromPrimary clouds cloudName with
    | .error err => .error err
    | .ok cloud => afterSelect opts s pub cloudName cloud

/-- The URL-substring inference step of determineIdentityAPI: with an
AuthInfo present, an auth URL containing "v2.0" suggests "2.0" and one
containing "v3" suggests "3", the latter check running second and thus
winning when both substrings occur; with no AuthInfo, nothing is
inferred. -/
def urlInferred (cloud : Cloud) : String :=
  match (Cloud.data cloud).AuthInfo with
  | none => ""
  | some ai =>
    let fromV2 := if strContains ai.AuthURL "v2.0" then "2.0" else ""
    if strContains ai.AuthURL "v3" then "3" else fromV2

/-- The auth-type inference step of determineIdentityAPI: the declared
auth-type constants of version 2 suggest "2.0", those of version 3
suggest "3", anything else infers nothing. -/
def authTypeInferred (t : String) : String :=
  if t = AuthV2Password ∨ t = AuthV2Token then "2.0"
  else if t = AuthV3Password ∨ t = AuthV3Token ∨ t = AuthV3ApplicationCredential then "3"
  else ""

/-- determineIdentityAPI determines the identity API version: start from
the cloud's IdentityAPIVersion field, overwrite it with the
IDENTITY_API_VERSION environment variable when that is set, then — only
when still empty — try URL-substring inference, then auth-type inference,
and finally default to "3". -/
def determineIdentityAPI (cloud : Cloud) (opts : ClientOpts) (e : Env) :
    String :=
  let fromField := (Cloud.data cloud).IdentityAPIVersion
  let envVal := Getenv e (envPfxOf opts ++ "IDENTITY_API_VERSION")
  let afterEnv := if envVal ≠ "" then envVal else fromField
  let afterURL := if afterEnv = "" then urlInferred cloud else afterEnv
  let afterType := if afterURL = "" then authTypeInferred (Cloud.data cloud).AuthType else afterURL
  if afterType = "" then "3" else afterType

/-- One environment fallback of the auth builders (Go pattern:
`if cur == "" { if v := env.Getenv(key); v != "" { cur = v } }`):
keep a non-empty current value, otherwise take the variable's value. -/
def envFallback (cur v : String) : String :=
  if cur ≠ "" then cur else v

/-- A double environment fallback (Go pattern: the same with two
variables checked in order, the second assignment overwriting the first):
keep a non-empty current value, otherwise the second variable when set,
otherwise the first. -/
def envFallback2 (cur v1 v2 : String) : String :=
  if cur ≠ "" then cur else if v2 ≠ "" then v2 else v1

/-- The AuthInfo of a cloud as the auth builders read it.  The Go code
dereferences cloud.AuthInfo without a nil check; AuthOptions guarantees it
is non-nil before dispatching, and the zero AuthInfo stands for the
(unreachable) nil case. -/
def authInfoOf (cloud : Cloud) : AuthInfo :=
  Option.getD (Cloud.data cloud).AuthInfo {}

/-- v2auth creates a v2-compatible gophercloud.AuthOptions value.  Every
empty field of the cloud's AuthInfo falls back to its environment
variable under the effective prefix (token and project accepting two
variables each); the result copies URL/token/username/password/tenant
fields and the reauth flag, and is returned without any further check. -/
def v2auth (cloud : Cloud) (opts : ClientOpts) (e : Env) :
    Except Err gophercloud.AuthOptions :=
  let g := fun k => Getenv e (envPfxOf opts ++ k)
  let ai0 := authInfoOf cloud
  let ai : AuthInfo := { ai0 with
    AuthURL := envFallback ai0.AuthURL (g "AUTH_URL")
    Token := envFallback2 ai0.Token (g "TOKEN") (g "AUTH_TOKEN")
    Username := envFallback ai0.Username (g "USERNAME")
    Password := envFallback ai0.Password (g "PASSWORD")
    ProjectID := envFallback2 ai0.ProjectID (g "TENANT_ID") (g "PROJECT_ID")
    ProjectName := envFallback2 ai0.ProjectName (g "TENANT_NAME") (g "PROJECT_NAME") }
  .ok {
    IdentityEndpoint := ai.AuthURL
    TokenID := ai.Token
    Username := ai.Username
    Password := ai.Password
    TenantID := ai.ProjectID
    TenantName := ai.ProjectName
    AllowReauth := ai.AllowReauth }

/-- isProjectScoped determines if an auth record is project scoped. -/
def isProjectScoped (authInfo : AuthInfo) : Bool :=
  if authInfo.ProjectID = "" ∧ authInfo.ProjectName = "" then false else true

/-- isApplicationCredential determines if an application credential is
used to auth. -/
def isApplicationCredential (authInfo : AuthInfo) : Bool :=
  if authInfo.ApplicationCredentialID = "" ∧ authInfo.ApplicationCredentialName = "" ∧
      authInfo.ApplicationCredentialSecret = "" then false
  else true

/-- The first block of setDomainIfNeeded: a set DomainID is copied to
UserDomainID and ProjectDomainID where those are unset, and then the bare
DomainID is cleared. -/
def setDomainFromID (ai : AuthInfo) : AuthInfo :=
  if ai.DomainID ≠ "" then
    { ai with
      UserDomainID := if ai.UserDomainID = "" then ai.DomainID else ai.UserDomainID
      ProjectDomainID := if ai.ProjectDomainID = "" then ai.DomainID else ai.ProjectDomainID
      DomainID := "" }
  else ai

/-- The second block of setDomainIfNeeded: a set DomainName is copied to
UserDomainName and ProjectDomainName where those are unset, and then the
bare DomainName is cleared. -/
def setDomainFromName (ai : AuthInfo) : AuthInfo :=
  if ai.DomainName ≠ "" then
    { ai with
      UserDomainName := if ai.UserDomainName = "" then ai.DomainName else ai.UserDomainName
      ProjectDomainName := if ai.ProjectDomainName = "" then ai.DomainName else ai.ProjectDomainName
      DomainName := "" }
  else ai

/-- The third block of setDomainIfNeeded: when DefaultDomain has a value,
UserDomainID / ProjectDomainID are set to it when both the name and the
ID of the respective domain pair are still unset. -/
def setDomainFromDefault (ai : AuthInfo) : AuthInfo :=
  if ai.DefaultDomain ≠ "" then
    { ai with
      UserDomainID := if ai.UserDomainName = "" ∧ ai.UserDomainID = "" then ai.DefaultDomain else ai.UserDomainID
      ProjectDomainID := if ai.ProjectDomainName = "" ∧ ai.ProjectDomainID = "" then ai.DefaultDomain else ai.ProjectDomainID }
  else ai

/-- setDomainIfNeeded sets a DomainID and DomainName to ProjectDomain*
and UserDomain* if not already set (clearing the bare fields), and then
fills UserDomainID / ProjectDomainID from DefaultDomain when both the ID
and the name of the respective domain pair are still unset, running its
three blocks in the source's order.  The Go function takes and returns
the containing *Cloud but touches only its AuthInfo fields, so it is
modelled on AuthInfo. -/
def setDomainIfNeeded (ai : AuthInfo) : AuthInfo :=
  setDomainFromDefault (setDomainFromName (setDomainFromID ai))

/-- The environment-fallback block at the head of v3auth: every empty
field of the cloud's AuthInfo falls back to its environment variable
under the effective prefix (token and project accepting two variables
each). -/
def v3MergedAuthInfo (cloud : Cloud) (opts : ClientOpts) (e : Env) :
    AuthInfo :=
  let g := fun k => Getenv e (envPfxOf opts ++ k)
  let ai0 := authInfoOf cloud
  { ai0 with
    AuthURL := envFallback ai0.AuthURL (g "AUTH_URL")
    Token := envFallback2 ai0.Token (g "TOKEN") (g "AUTH_TOKEN")
    Username := envFallback ai0.Username (g "USERNAME")
    UserID := envFallback ai0.UserID (g "USER_ID")
    Password := envFallback ai0.Password (g "PASSWORD")
    ProjectID := envFallback2 ai0.ProjectID (g "TENANT_ID") (g "PROJECT_ID")
    ProjectName := envFallback2 ai0.ProjectName (g "TENANT_NAME") (g "PROJECT_NAME")
    DomainID := envFallback ai0.DomainID (g "DOMAIN_ID")
    DomainName := envFallback ai0.DomainName (g "DOMAIN_NAME")
    DefaultDomain := envFallback ai0.DefaultDomain (g "DEFAULT_DOMAIN")
    ProjectDomainID := envFallback ai0.ProjectDomainID (g "PROJECT_DOMAIN_ID")
    ProjectDomainName := envFallback ai0.ProjectDomainName (g "PROJECT_DOMAIN_NAME")
    UserDomainID := envFallback ai0.UserDomainID (g "USER_DOMAIN_ID")
    UserDomainName := envFallback ai0.UserDomainName (g "USER_DOMAIN_NAME")
    ApplicationCredentialID := envFallback ai0.ApplicationCredentialID (g "APPLICATION_CREDENTIAL_ID")
    ApplicationCredentialName := envFallback ai0.ApplicationCredentialName (g "APPLICATION_CREDENTIAL_NAME")
    ApplicationCredentialSecret := envFallback ai0.ApplicationCredentialSecret (g "APPLICATION_CREDENTIAL_SECRET")
    SystemScope := envFallback ai0.SystemScope (g "SYSTEM_SCOPE") }

/-- The scope-building block of v3auth.  Application credentials do not
support a scope: the scope stays zero and only domain defaulting is
applied.  Otherwise, non-project-scoped auth takes a domain-level scope
(DomainID preferred over DomainName) with the System flag set when a
system scope is present, while project-scoped auth applies domain
defaulting first and then scopes by ProjectID when set, else by
ProjectName plus the project domain.  Returns the scope together with the
(possibly domain-defaulted) AuthInfo the options are then built from. -/
def v3ScopeAndInfo (ai : AuthInfo) : gophercloud.AuthScope × AuthInfo :=
  if isApplicationCredential ai then
    ({}, setDomainIfNeeded ai)
  else if !(isProjectScoped ai) then
    let scope1 : gophercloud.AuthScope :=
      if ai.DomainID ≠ "" then { DomainID := ai.DomainID }
      else if ai.DomainName ≠ "" then { DomainName := ai.DomainName }
      else {}
    let scope2 := if ai.SystemScope ≠ "" then { scope1 with System := true } else scope1
    (scope2, ai)
  else
    let ai2 := setDomainIfNeeded ai
    if ai2.ProjectID ≠ "" then
      ({ ProjectID := ai2.ProjectID }, ai2)
    else
      ({ ProjectName := ai2.ProjectName
         DomainID := ai2.ProjectDomainID
         DomainName := ai2.ProjectDomainName }, ai2)

/-- The option construction at the end of v3auth, including the token
clean-up: when the declared auth-type string contains "token" or a token
is set, username, password, userID and the domain pair are unset so that
token authentication is used on its own. -/
def v3BuildAO (authType : String) (scope : gophercloud.AuthScope)
    (ai : AuthInfo) : gophercloud.AuthOptions :=
  let ao : gophercloud.AuthOptions := {
    Scope := some scope
    IdentityEndpoint := ai.AuthURL
    TokenID := ai.Token
    Username := ai.Username
    UserID := ai.UserID
    Password := ai.Password
    TenantID := ai.ProjectID
    TenantName := ai.ProjectName
    DomainID := ai.UserDomainID
    DomainName := ai.UserDomainName
    ApplicationCredentialID := ai.ApplicationCredentialID
    ApplicationCredentialName := ai.ApplicationCredentialName
    ApplicationCredentialSecret := ai.ApplicationCredentialSecret
    AllowReauth := ai.AllowReauth }
  if strContains authType "token" || ao.TokenID != "" then
    { ao with Username := "", Password := "", UserID := "", DomainID := "", DomainName := "" }
  else ao

/-- v3auth creates a v3-compatible gophercloud.AuthOptions value:
environment fallback, scope building, option construction with token
clean-up, and the absolute-minimum check that the identity endpoint is
non-empty (else the missing-input error for auth_url). -/
def v3auth (cloud : Cloud) (opts : ClientOpts) (e : Env) :
    Except Err gophercloud.AuthOptions :=
  let ai := v3MergedAuthInfo cloud opts e
  let si := v3ScopeAndInfo ai
  let ao := v3BuildAO (Cloud.data cloud).AuthType si.1 si.2
  if ao.IdentityEndpoint = "" then .error (.missingInput "auth_url")
  else .ok ao

/-- AuthOptions creates a gophercloud.AuthOptions value from a cloud entry
of a clouds.yaml file or from the auth settings of the ClientOpts: when a
cloud name is determined (explicit option, else CLOUD environment
variable) the entry is resolved through GetCloudFromYAML (propagating its
failure), else an empty cloud is used; a missing AuthInfo is replaced by
the one from opts or an empty one; then the identity API version is
determined and dispatches to v2auth or v3auth, any other version being
the "Unable to build AuthOptions" error. -/
def AuthOptions (opts : ClientOpts) (e : Env) (p s pub : FindRes) :
    Except Err gophercloud.AuthOptions :=
  let cloudName := determineCloudName opts e
  let fetched : Except Err Cloud :=
    if cloudName ≠ "" then GetCloudFromYAML opts e p s pub
    else .ok emptyCloud
  match fetched with
  | .error err => .error err
  | .ok cloud0 =>
    let cloud := if (Cloud.data cloud0).AuthInfo.isNone then
        Cloud.mk { Cloud.data cloud0 with
          AuthInfo := some (Option.getD opts.AuthInfo {}) }
      else cloud0
    match determineIdentityAPI cloud opts e with
    | "2.0" => v2auth cloud opts e
    | "2" => v2auth cloud opts e
    | "3" => v3auth cloud opts e
    | _ => .error .unableToBuildAuthOptions

/-- One string field of the merge-precedence property: a non-zero override
value wins, a zero one keeps the base value. -/
def strWins (hi lo m : String) : Prop :=
  (hi ≠ "" → m = hi) ∧ (hi = "" → m = lo)

/-- One optional field of the merge-precedence property. -/
def optWins {α : Type} (hi lo m : Option α) : Prop :=
  (∀ v, hi = some v → m = some v) ∧ (hi = none → m = lo)

/-- One boolean field of the merge-precedence property (zero is false). -/
def boolWins (hi lo m : Bool) : Prop :=
  (hi = true → m = true) ∧ (hi = false → m = lo)

/-- One list field of the merge-precedence property (zero is the empty
list; a non-zero list wins wholesale). -/
def listWins {α : Type} (hi lo m : List α) : Prop :=
  (hi ≠ [] → m = hi) ∧ (hi = [] → m = lo)

/-- The merge-precedence property on the AuthInfo record: every field the
override side sets appears in the result with the override side's value,
every field it leaves zero retains the base side's value. -/
def authInfoWins (hi lo m : AuthInfo) : Prop :=
  strWins hi.AuthURL lo.AuthURL m.AuthURL ∧
  strWins hi.Token lo.Token m.Token ∧
  strWins hi.Username lo.Username m.Username ∧
  strWins hi.UserID lo.UserID m.UserID ∧
  strWins hi.Password lo.Password m.Password ∧
  strWins hi.ProjectID lo.ProjectID m.ProjectID ∧
  strWins hi.ProjectName lo.ProjectName m.ProjectName ∧
  strWins hi.DomainID lo.DomainID m.DomainID ∧
  strWins hi.DomainName lo.DomainName m.DomainName ∧
  strWins hi.DefaultDomain lo.DefaultDomain m.DefaultDomain ∧
  strWins hi.ProjectDomainID lo.ProjectDomainID m.ProjectDomainID ∧
  strWins hi.ProjectDomainName lo.ProjectDomainName m.ProjectDomainName ∧
  strWins hi.UserDomainID lo.UserDomainID m.UserDomainID ∧
  strWins hi.UserDomainName lo.UserDomainName m.UserDomainName ∧
  strWins hi.ApplicationCredentialID lo.ApplicationCredentialID m.ApplicationCredentialID ∧
  strWins hi.ApplicationCredentialName lo.ApplicationCredentialName m.ApplicationCredentialName ∧
  strWins hi.ApplicationCredentialSecret lo.ApplicationCredentialSecret m.ApplicationCredentialSecret ∧
  strWins hi.SystemScope lo.SystemScope m.SystemScope ∧
  boolWins hi.AllowReauth lo.AllowReauth m.AllowReauth

/-- The merge-precedence property on the optional embedded AuthInfo: an
absent override side keeps the base side, a present one wins where it is
set, recursively field by field when both sides are present. -/
def authOptWins : Option AuthInfo → Option AuthInfo → Option AuthInfo → Prop
  | none, lo, m => m = lo
  | some h, none, m => m = some h
  | some h, some l, m => ∃ a, m = some a ∧ authInfoWins h l a

/-- The merge-precedence property on the Cloud record ("for every field
set (non-zero) in the override side, the result equals the override
side's value; for every field left zero, the result equals the base
side's value"), covering every field of Cloud and AuthInfo. -/
def mergePrecedence (hi lo m : Cloud) : Prop :=
  strWins (Cloud.data hi).Cloud (Cloud.data lo).Cloud (Cloud.data m).Cloud ∧
  strWins (Cloud.data hi).Profile (Cloud.data lo).Profile (Cloud.data m).Profile ∧
  authOptWins (Cloud.data hi).AuthInfo (Cloud.data lo).AuthInfo (Cloud.data m).AuthInfo ∧
  strWins (Cloud.data hi).AuthType (Cloud.data lo).AuthType (Cloud.data m).AuthType ∧
  strWins (Cloud.data hi).RegionName (Cloud.data lo).RegionName (Cloud.data m).RegionName ∧
  listWins (Cloud.data hi).Regions (Cloud.data lo).Regions (Cloud.data m).Regions ∧
  strWins (Cloud.data hi).EndpointType (Cloud.data lo).EndpointType (Cloud.data m).EndpointType ∧
  strWins (Cloud.data hi).Interface (Cloud.data lo).Interface (Cloud.data m).Interface ∧
  strWins (Cloud.data hi).IdentityAPIVersion (Cloud.data lo).IdentityAPIVersion (Cloud.data m).IdentityAPIVersion ∧
  strWins (Cloud.data hi).VolumeAPIVersion (Cloud.data lo).VolumeAPIVersion (Cloud.data m).VolumeAPIVersion ∧
  optWins (Cloud.data hi).Verify (Cloud.data lo).Verify (Cloud.data m).Verify ∧
  strWins (Cloud.data hi).CACertFile (Cloud.data lo).CACertFile (Cloud.data m).CACertFile ∧
  strWins (Cloud.data hi).ClientCertFile (Cloud.data lo).ClientCertFile (Cloud.data m).ClientCertFile ∧
  strWins (Cloud.data hi).ClientKeyFile (Cloud.data lo).ClientKeyFile (Cloud.data m).ClientKeyFile

theorem strOv_wins (hi lo : String) : strWins hi lo (strOv hi lo) := by
  constructor <;> intro h <;> simp [strOv, h]

theorem optOv_wins {α : Type} (hi lo : Option α) : optWins hi lo (optOv hi lo) := by
  constructor
  · intro v h
    simp [optOv, h]
  · intro h
    simp [optOv, h]

theorem mergeAuthInfo_wins (hi lo : AuthInfo) :
    authInfoWins hi lo (mergeAuthInfo hi lo) := by
  refine ⟨strOv_wins _ _, strOv_wins _ _, strOv_wins _ _, strOv_wins _ _,
    strOv_wins _ _, strOv_wins _ _, strOv_wins _ _, strOv_wins _ _,
    strOv_wins _ _, strOv_wins _ _, strOv_wins _ _, strOv_wins _ _,
    strOv_wins _ _, strOv_wins _ _, strOv_wins _ _, strOv_wins _ _,
    strOv_wins _ _, strOv_wins _ _, ?_, ?_⟩
  · intro h
    simp [mergeAuthInfo, h]
  · intro h
    simp [mergeAuthInfo, h]

theorem mergeAuthInfoOpt_wins (hi lo : Option AuthInfo) :
    authOptWins hi lo (mergeAuthInfoOpt hi lo) := by
  cases hi with
  | none => cases lo <;> rfl
  | some h =>
    cases lo with
    | none => rfl
    | some l => exact ⟨mergeAuthInfo h l, rfl, mergeAuthInfo_wins h l⟩

theorem listOv_wins {α : Type} (hi lo : List α) :
    listWins hi lo (if hi.isEmpty then lo else hi) := by
  cases hi <;> simp [listWins]

theorem mergeClouds_wins (hi lo : Cloud) :
    mergePrecedence hi lo (mergeClouds hi lo) := by
  exact ⟨strOv_wins _ _, strOv_wins _ _, mergeAuthInfoOpt_wins _ _,
    strOv_wins _ _, strOv_wins _ _, listOv_wins _ _, strOv_wins _ _,
    strOv_wins _ _, strOv_wins _ _, strOv_wins _ _, optOv_wins _ _,
    strOv_wins _ _, strOv_wins _ _, strOv_wins _ _⟩

theorem v3auth_ok_shape (cloud : Cloud) (opts : ClientOpts) (e : Env)
    (ao : gophercloud.AuthOptions) (h : v3auth cloud opts e = .ok ao) :
    ao = v3BuildAO (Cloud.data cloud).AuthType
      (v3ScopeAndInfo (v3MergedAuthInfo cloud opts e)).1
      (v3ScopeAndInfo (v3MergedAuthInfo cloud opts e)).2 := by
  simp only [v3auth] at h
  split at h
  · exact Except.noConfusion h
  · exact (Except.ok.inj h).symm

theorem v3auth_error_shape (cloud : Cloud) (opts : ClientOpts) (e : Env)
    (err : Err) (h : v3auth cloud opts e = .error err) :
    err = .missingInput "auth_url" := by
  simp only [v3auth] at h
  split at h
  · exact (Except.error.inj h).symm
  · exact Except.noConfusion h

theorem v3BuildAO_Scope (t : String) (s : gophercloud.AuthScope)
    (ai : AuthInfo) : (v3BuildAO t s ai).Scope = some s := by
  simp only [v3BuildAO]
  split <;> rfl

theorem v3BuildAO_endpoint (t : String) (s : gophercloud.AuthScope)
    (ai : AuthInfo) : (v3BuildAO t s ai).IdentityEndpoint = ai.AuthURL := by
  simp only [v3BuildAO]
  split <;> rfl

theorem v3BuildAO_TokenID (t : String) (s : gophercloud.AuthScope)
    (ai : AuthInfo) : (v3BuildAO t s ai).TokenID = ai.Token := by
  simp only [v3BuildAO]
  split <;> rfl

theorem setDomainFromID_AuthURL (a : AuthInfo) :
    (setDomainFromID a).AuthURL = a.AuthURL := by
  simp only [setDomainFromID]
  split <;> simp

theorem setDomainFromName_AuthURL (a : AuthInfo) :
    (setDomainFromName a).AuthURL = a.AuthURL := by
  simp only [setDomainFromName]
  split <;> simp

theorem setDomainFromDefault_AuthURL (a : AuthInfo) :
    (setDomainFromDefault a).AuthURL = a.AuthURL := by
  simp only [setDomainFromDefault]
  split <;> simp

theorem setDomainIfNeeded_AuthURL (a : AuthInfo) :
    (setDomainIfNeeded a).AuthURL = a.AuthURL := by
  simp only [setDomainIfNeeded, setDomainFromDefault_AuthURL,
    setDomainFromName_AuthURL, setDomainFromID_AuthURL]

theorem v3ScopeAndInfo_AuthURL (a : AuthInfo) :
    (v3ScopeAndInfo a).2.AuthURL = a.AuthURL := by
  simp only [v3ScopeAndInfo]
  split_ifs <;> simp [setDomainIfNeeded_AuthURL]

theorem v3MergedAuthInfo_AuthURL (cloud : Cloud) (opts : ClientOpts) (e : Env) :
    (v3MergedAuthInfo cloud opts e).AuthURL =
      envFallback (authInfoOf cloud).AuthURL
        (Getenv e (envPfxOf opts ++ "AUTH_URL")) := rfl

theorem setDomainFromID_id_empty (a : AuthInfo) (h : a.DomainID = "") :
    setDomainFromID a = a := by
  simp [setDomainFromID, h]

theorem setDomainFromName_name_empty (a : AuthInfo) (h : a.DomainName = "") :
    setDomainFromName a = a := by
  simp [setDomainFromName, h]

theorem setDomainFromID_fill_user (a : AuthInfo) (h1 : a.DomainID ≠ "")
    (h2 : a.UserDomainID = "") : (setDomainFromID a).UserDomainID = a.DomainID := by
  simp [setDomainFromID, h1, h2]

theorem setDomainFromID_fill_proj (a : AuthInfo) (h1 : a.DomainID ≠ "")
    (h2 : a.ProjectDomainID = "") :
    (setDomainFromID a).ProjectDomainID = a.DomainID := by
  simp [setDomainFromID, h1, h2]

theorem setDomainFromName_UserDomainID (a : AuthInfo) :
    (setDomainFromName a).UserDomainID = a.UserDomainID := by
  simp only [setDomainFromName]
  split <;> simp

theorem setDomainFromName_ProjectDomainID (a : AuthInfo) :
    (setDomainFromName a).ProjectDomainID = a.ProjectDomainID := by
  simp only [setDomainFromName]
  split <;> simp

theorem setDomainFromName_fill_user (a : AuthInfo) (h1 : a.DomainName ≠ "")
    (h2 : a.UserDomainName = "") :
    (setDomainFromName a).UserDomainName = a.DomainName := by
  simp [setDomainFromName, h1, h2]

theorem setDomainFromName_fill_proj (a : AuthInfo) (h1 : a.DomainName ≠ "")
    (h2 : a.ProjectDomainName = "") :
    (setDomainFromName a).ProjectDomainName = a.DomainName := by
  simp [setDomainFromName, h1, h2]

theorem setDomainFromDefault_user_ne (a : AuthInfo) (h : a.UserDomainID ≠ "") :
    (setDomainFromDefault a).UserDomainID = a.UserDomainID := by
  simp only [setDomainFromDefault]
  split <;> simp [h]

theorem setDomainFromDefault_proj_ne (a : AuthInfo) (h : a.ProjectDomainID ≠ "") :
    (setDomainFromDefault a).ProjectDomainID = a.ProjectDomainID := by
  simp only [setDomainFromDefault]
  split <;> simp [h]

theorem setDomainFromDefault_UserDomainName (a : AuthInfo) :
    (setDomainFromDefault a).UserDomainName = a.UserDomainName := by
  simp only [setDomainFromDefault]
  split <;> simp

theorem setDomainFromDefault_ProjectDomainName (a : AuthInfo) :
    (setDomainFromDefault a).ProjectDomainName = a.ProjectDomainName := by
  simp only [setDomainFromDefault]
  split <;> simp

theorem setDomainFromDefault_fill_user (a : AuthInfo) (h1 : a.DefaultDomain ≠ "")
    (h2 : a.UserDomainName = "") (h3 : a.UserDomainID = "") :
    (setDomainFromDefault a).UserDomainID = a.DefaultDomain := by
  simp [setDomainFromDefault, h1, h2, h3]

theorem setDomainFromDefault_fill_proj (a : AuthInfo) (h1 : a.DefaultDomain ≠ "")
    (h2 : a.ProjectDomainName = "") (h3 : a.ProjectDomainID = "") :
    (setDomainFromDefault a).ProjectDomainID = a.DefaultDomain := by
  simp [setDomainFromDefault, h1, h2, h3]

theorem setDomainFromID_DomainName (a : AuthInfo) :
    (setDomainFromID a).DomainName = a.DomainName := by
  simp only [setDomainFromID]
  split <;> simp

theorem setDomainFromID_UserDomainName (a : AuthInfo) :
    (setDomainFromID a).UserDomainName = a.UserDomainName := by
  simp only [setDomainFromID]
  split <;> simp

theorem setDomainFromID_ProjectDomainName (a : AuthInfo) :
    (setDomainFromID a).ProjectDomainName = a.ProjectDomainName := by
  simp only [setDomainFromID]
  split <;> simp

theorem setDomainIfNeeded_fill_user_id (a : AuthInfo) (h1 : a.DomainID ≠ "")
    (h2 : a.UserDomainID = "") :
    (setDomainIfNeeded a).UserDomainID = a.DomainID := by
  have hb : (setDomainFromName (setDomainFromID a)).UserDomainID = a.DomainID := by
    rw [setDomainFromName_UserDomainID, setDomainFromID_fill_user a h1 h2]
  rw [setDomainIfNeeded, setDomainFromDefault_user_ne _ (by rw [hb]; exact h1), hb]

theorem setDomainIfNeeded_fill_proj_id (a : AuthInfo) (h1 : a.DomainID ≠ "")
    (h2 : a.ProjectDomainID = "") :
    (setDomainIfNeeded a).ProjectDomainID = a.DomainID := by
  have hb : (setDomainFromName (setDomainFromID a)).ProjectDomainID = a.DomainID := by
    rw [setDomainFromName_ProjectDomainID, setDomainFromID_fill_proj a h1 h2]
  rw [setDomainIfNeeded, setDomainFromDefault_proj_ne _ (by rw [hb]; exact h1), hb]

theorem setDomainIfNeeded_fill_user_name (a : AuthInfo) (h1 : a.DomainName ≠ "")
    (h2 : a.UserDomainName = "") :
    (setDomainIfNeeded a).UserDomainName = a.DomainName := by
  rw [setDomainIfNeeded, setDomainFromDefault_UserDomainName,
    setDomainFromName_fill_user _ (by rw [setDomainFromID_DomainName]; exact h1)
      (by rw [setDomainFromID_UserDomainName]; exact h2),
    setDomainFromID_DomainName]

theorem setDomainIfNeeded_fill_proj_name (a : AuthInfo) (h1 : a.DomainName ≠ "")
    (h2 : a.ProjectDomainName = "") :
    (setDomainIfNeeded a).ProjectDomainName = a.DomainName := by
  rw [setDomainIfNeeded, setDomainFromDefault_ProjectDomainName,
    setDomainFromName_fill_proj _ (by rw [setDomainFromID_DomainName]; exact h1)
      (by rw [setDomainFromID_ProjectDomainName]; exact h2),
    setDomainFromID_DomainName]

theorem setDomainIfNeeded_fill_user_default (a : AuthInfo) (h1 : a.DomainID = "")
    (h2 : a.DomainName = "") (h3 : a.DefaultDomain ≠ "")
    (h4 : a.UserDomainID = "") (h5 : a.UserDomainName = "") :
    (setDomainIfNeeded a).UserDomainID = a.DefaultDomain := by
  rw [setDomainIfNeeded, setDomainFromID_id_empty a h1,
    setDomainFromName_name_empty a h2,
    setDomainFromDefault_fill_user a h3 h5 h4]

theorem setDomainIfNeeded_fill_proj_default (a : AuthInfo) (h1 : a.DomainID = "")
    (h2 : a.DomainName = "") (h3 : a.DefaultDomain ≠ "")
    (h4 : a.ProjectDomainID = "") (h5 : a.ProjectDomainName = "") :
    (setDomainIfNeeded a).ProjectDomainID = a.DefaultDomain := by
  rw [setDomainIfNeeded, setDomainFromID_id_empty a h1,
    setDomainFromName_name_empty a h2,
    setDomainFromDefault_fill_proj a h3 h5 h4]

theorem Cloud.data_mk (d : CloudData Cloud) : Cloud.data (Cloud.mk d) = d := rfl

theorem applySecure_ext (s1 s2 : FindRes) (n : String) (c : Option Cloud)
    (h : LoadSecureCloudsYAML s1 = LoadSecureCloudsYAML s2) :
    applySecure s1 n c = applySecure s2 n c := by
  unfold applySecure
  rw [h]

theorem applyProfile_ext (p1 p2 : FindRes) (c : Option Cloud)
    (h : LoadPublicCloudsYAML p1 = LoadPublicCloudsYAML p2) :
    applyProfile p1 c = applyProfile p2 c := by
  unfold applyProfile
  rw [h]

theorem afterSelect_ext (opts : ClientOpts) (s1 s2 pub1 pub2 : FindRes)
    (n : String) (c : Option Cloud)
    (hs : LoadSecureCloudsYAML s1 = LoadSecureCloudsYAML s2)
    (hpub : LoadPublicCloudsYAML pub1 = LoadPublicCloudsYAML pub2) :
    afterSelect opts s1 pub1 n c = afterSelect opts s2 pub2 n c := by
  unfold afterSelect
  rw [applyProfile_ext pub1 pub2 c hpub]
  cases applyProfile pub2 c with
  | error err => rfl
  | ok c2 =>
    dsimp only
    rw [applySecure_ext s1 s2 n c2 hs]

theorem GetCloudFromYAML_ext (opts : ClientOpts) (e : Env)
    (p s1 s2 pub1 pub2 : FindRes)
    (hs : LoadSecureCloudsYAML s1 = LoadSecureCloudsYAML s2)
    (hpub : LoadPublicCloudsYAML pub1 = LoadPublicCloudsYAML pub2) :
    GetCloudFromYAML opts e p s1 pub1 = GetCloudFromYAML opts e p s2 pub2 := by
  unfold GetCloudFromYAML
  cases LoadCloudsYAML p with
  | error err => rfl
  | ok clouds =>
    dsimp only
    cases selectFromPrimary clouds (determineCloudName opts e) with
    | error err => rfl
    | ok cloud =>
      dsimp only
      exact afterSelect_ext opts s1 s2 pub1 pub2 _ cloud hs hpub

theorem finalizeCloud_some_ok (opts : ClientOpts) (n : String) (c0 : Cloud) :
    ∃ c, finalizeCloud opts n (some c0) = .ok c ∧
      (∃ pre, c = normalizeInterface pre) := by
  simp only [finalizeCloud]
  exact ⟨_, rfl, _, rfl⟩

theorem finalizeCloud_ok_shape (opts : ClientOpts) (n : String)
    (oc : Option Cloud) (c : Cloud) (h : finalizeCloud opts n oc = .ok c) :
    ∃ pre, c = normalizeInterface pre := by
  cases oc with
  | none => exact Except.noConfusion h
  | some c0 =>
    simp only [finalizeCloud] at h
    exact ⟨_, (Except.ok.inj h).symm⟩

theorem GetCloudFromYAML_ok_shape (opts : ClientOpts) (e : Env)
    (p s pub : FindRes) (c : Cloud)
    (h : GetCloudFromYAML opts e p s pub = .ok c) :
    ∃ pre, c = normalizeInterface pre := by
  simp only [GetCloudFromYAML] at h
  split at h
  · exact Except.noConfusion h
  · split at h
    · exact Except.noConfusion h
    · unfold afterSelect at h
      split at h
      · exact Except.noConfusion h
      · split at h
        · exact Except.noConfusion h
        · exact finalizeCloud_ok_shape opts _ _ c h

theorem normalizeInterface_spec (pre : Cloud) :
    (Cloud.data (normalizeInterface pre)).Interface = "" ∧
    ((Cloud.data pre).EndpointType = "" → (Cloud.data pre).Interface ≠ "" →
      (Cloud.data (normalizeInterface pre)).EndpointType = (Cloud.data pre).Interface) ∧
    ((Cloud.data pre).EndpointType ≠ "" →
      (Cloud.data (normalizeInterface pre)).EndpointType = (Cloud.data pre).EndpointType) ∧
    ((Cloud.data pre).Interface = "" →
      (Cloud.data (normalizeInterface pre)).EndpointType = (Cloud.data pre).EndpointType) := by
  refine ⟨?_, ?_, ?_, ?_⟩
  · simp only [normalizeInterface]
    split <;> rfl
  · intro h1 h2
    simp [normalizeInterface, Cloud.data_mk, h1, h2]
  · intro h1
    simp [normalizeInterface, Cloud.data_mk, h1]
  · intro h1
    simp [normalizeInterface, Cloud.data_mk, h1]

/-- C1: when the secure overlay contains an entry for the selected cloud
name whose content is non-empty and differs from the already-merged cloud,
GetCloudFromYAML's secure step merges with the secure entry's values
taking precedence: every field the secure entry sets appears in the
result with the secure entry's value, overriding the already-merged
(primary plus profile) values, and every field it leaves zero retains the
already-merged cloud's value. -/
theorem C1_secure_overlay_wins (s : FindRes) (secList : List (String × Cloud))
    (cloudName : String) (sec c : Cloud)
    (hload : LoadSecureCloudsYAML s = .ok (some secList))
    (hfind : List.lookup cloudName secList = some sec)
    (hne : Cloud.isZero sec = false)
    (_hdiff : sec ≠ c) :
    applySecure s cloudName (some c) = .ok (some (mergeClouds sec c)) ∧
    mergePrecedence sec c (mergeClouds sec c) := by
  constructor
  · unfold applySecure
    rw [hload]
    dsimp only
    simp [hfind, hne, deepEqualPtrVal]
  · exact mergeClouds_wins sec c

def secWitCloud : Cloud :=
  Cloud.mk { Cloud := "wsec", AuthInfo := some { Password := "spw" } }

def baseWitCloud : Cloud :=
  Cloud.mk {
    Cloud := "wbase"
    EndpointType := "internal"
    AuthInfo := some { Username := "u", Password := "opw" } }

/-- Witness for C1 at a concrete secure document and merged cloud. -/
theorem C1_secure_overlay_wins_witness :
    applySecure (.ok (.parsed (some [("wsec", secWitCloud)]))) "wsec"
      (some baseWitCloud) = .ok (some (mergeClouds secWitCloud baseWitCloud)) ∧
    mergePrecedence secWitCloud baseWitCloud (mergeClouds secWitCloud baseWitCloud) := by
  refine C1_secure_overlay_wins _ [("wsec", secWitCloud)] "wsec" secWitCloud
    baseWitCloud rfl rfl rfl ?_
  intro hEq
  have h3 : ("wsec" : String) = "wbase" :=
    congrArg (fun x => (Cloud.data x).Cloud) hEq
  exact absurd h3 (by decide)

/-- C8: when the resolved entry's profile name (the Profile field, falling
back to the Cloud field) is non-empty, GetCloudFromYAML's profile step
fails when that name is absent from the loaded public/vendor catalog, and
otherwise merges keeping every value already set on the selected cloud,
taking the profile's value only for the fields the cloud left unset. -/
theorem C8_profile_fills_gaps (pub : FindRes) (pubMap : CloudMap) (c : Cloud)
    (hname : profileNameOf c ≠ "")
    (hload : LoadPublicCloudsYAML pub = .ok pubMap) :
    ((Cloud.data c).Profile ≠ "" → profileNameOf c = (Cloud.data c).Profile) ∧
    ((Cloud.data c).Profile = "" → profileNameOf c = (Cloud.data c).Cloud) ∧
    (mapLookup pubMap (profileNameOf c) = none →
      applyProfile pub (some c) = .error (.profileNotFound (profileNameOf c))) ∧
    (∀ pc, mapLookup pubMap (profileNameOf c) = some pc →
      applyProfile pub (some c) = .ok (some (mergeClouds c pc)) ∧
      mergePrecedence c pc (mergeClouds c pc)) := by
  refine ⟨?_, ?_, ?_, ?_⟩
  · intro h
    simp [profileNameOf, defaultIfEmpty, h]
  · intro h
    simp [profileNameOf, defaultIfEmpty, h]
  · intro h
    simp [applyProfile, hname, hload, h]
  · intro pc h
    exact ⟨by simp [applyProfile, hname, hload, h], mergeClouds_wins c pc⟩

def profWitCloud : Cloud :=
  Cloud.mk { Profile := "vendorX", AuthInfo := some { Username := "u" } }

def vendorWitCloud : Cloud :=
  Cloud.mk {
    Regions := [{ Name := "r1", Values := emptyCloud }]
    EndpointType := "public" }

/-- Witness for C8 at a concrete cloud entry and vendor catalog. -/
theorem C8_profile_fills_gaps_witness :
    applyProfile (.ok (.parsed (some [("vendorX", vendorWitCloud)])))
      (some profWitCloud) =
      .ok (some (mergeClouds profWitCloud vendorWitCloud)) ∧
    mergePrecedence profWitCloud vendorWitCloud
      (mergeClouds profWitCloud vendorWitCloud) :=
  (C8_profile_fills_gaps (.ok (.parsed (some [("vendorX", vendorWitCloud)])))
    (some [("vendorX", vendorWitCloud)]) profWitCloud (by decide) rfl).2.2.2
    vendorWitCloud rfl

/-- C2: GetCloudFromYAML determines the cloud name with this precedence:
a non-empty explicit opts.Cloud, otherwise the CLOUD environment variable
under the effective prefix (default "OS_"); a determined name that is
absent from the primary document fails with the cloud-not-found error,
a present one selects that entry, and with no determined name a
single-entry primary document selects its sole entry. -/
theorem C2_name_precedence (opts : ClientOpts) (e : Env) (p s pub : FindRes)
    (clouds : CloudMap) (hp : LoadCloudsYAML p = .ok clouds) :
    (opts.Cloud ≠ "" → determineCloudName opts e = opts.Cloud) ∧
    (opts.Cloud = "" →
      determineCloudName opts e = Getenv e (envPfxOf opts ++ "CLOUD")) ∧
    (opts.envPfx = "" → envPfxOf opts = "OS_") ∧
    (determineCloudName opts e ≠ "" →
      mapLookup clouds (determineCloudName opts e) = none →
      GetCloudFromYAML opts e p s pub =
        .error (.cloudNotFound (determineCloudName opts e))) ∧
    (∀ v, determineCloudName opts e ≠ "" →
      mapLookup clouds (determineCloudName opts e) = some v →
      GetCloudFromYAML opts e p s pub =
        afterSelect opts s pub (determineCloudName opts e) (some v)) ∧
    (∀ k v, determineCloudName opts e = "" → clouds = some [(k, v)] →
      GetCloudFromYAML opts e p s pub =
        afterSelect opts s pub (determineCloudName opts e) (some v)) := by
  refine ⟨?_, ?_, ?_, ?_, ?_, ?_⟩
  · intro h
    simp [determineCloudName, h]
  · intro h
    simp [determineCloudName, h]
  · intro h
    simp [envPfxOf, h]
  · intro h1 h2
    simp [GetCloudFromYAML, hp, selectFromPrimary, h1, h2]
  · intro v h1 h2
    simp [GetCloudFromYAML, hp, selectFromPrimary, h1, h2]
  · intro k v h1 h2
    subst h2
    simp [GetCloudFromYAML, hp, selectFromPrimary, h1, mapLen, mapLookup]

/-- Witness for C2 at a concrete explicit name missing from the primary
document. -/
theorem C2_name_precedence_witness :
    determineCloudName { Cloud := "mycloud" } envEmpty = "mycloud" ∧
    GetCloudFromYAML { Cloud := "mycloud" } envEmpty (.ok (.parsed none))
      (.ok (.parsed none)) (.ok (.parsed none)) =
      .error (.cloudNotFound "mycloud") := by
  have h := C2_name_precedence { Cloud := "mycloud" } envEmpty
    (.ok (.parsed none)) (.ok (.parsed none)) (.ok (.parsed none)) none rfl
  exact ⟨h.1 (by decide), h.2.2.2.1 (by decide) rfl⟩

theorem isZero_emptyCloud : Cloud.isZero emptyCloud = true := rfl

/-- C9: every Cloud successfully returned by GetCloudFromYAML has an empty
Interface field, and its EndpointType equals the pre-normalisation
Interface value exactly when EndpointType was unset and Interface was
set, keeping its own value otherwise. -/
theorem C9_interface_cleared (opts : ClientOpts) (e : Env) (p s pub : FindRes)
    (c : Cloud) (h : GetCloudFromYAML opts e p s pub = .ok c) :
    (Cloud.data c).Interface = "" ∧
    ∃ pre, c = normalizeInterface pre ∧
      ((Cloud.data pre).EndpointType = "" → (Cloud.data pre).Interface ≠ "" →
        (Cloud.data c).EndpointType = (Cloud.data pre).Interface) ∧
      ((Cloud.data pre).EndpointType ≠ "" →
        (Cloud.data c).EndpointType = (Cloud.data pre).EndpointType) ∧
      ((Cloud.data pre).Interface = "" →
        (Cloud.data c).EndpointType = (Cloud.data pre).EndpointType) := by
  obtain ⟨pre, hpre⟩ := GetCloudFromYAML_ok_shape opts e p s pub c h
  subst hpre
  obtain ⟨h1, h2, h3, h4⟩ := normalizeInterface_spec pre
  exact ⟨h1, pre, rfl, h2, h3, h4⟩

def legacyWitCloud : Cloud :=
  Cloud.mk { Interface := "admin", AuthInfo := some { AuthURL := "https://h/v3" } }

def legacyWitResult : Cloud :=
  Cloud.mk {
    EndpointType := "admin"
    Verify := some true
    AuthInfo := some { AuthURL := "https://h/v3" } }

/-- Witness for C9 at a concrete single-entry primary document whose
entry only sets the legacy Interface field. -/
theorem C9_interface_cleared_witness :
    (Cloud.data legacyWitResult).Interface = "" ∧
    ∃ pre, legacyWitResult = normalizeInterface pre ∧
      ((Cloud.data pre).EndpointType = "" → (Cloud.data pre).Interface ≠ "" →
        (Cloud.data legacyWitResult).EndpointType = (Cloud.data pre).Interface) ∧
      ((Cloud.data pre).EndpointType ≠ "" →
        (Cloud.data legacyWitResult).EndpointType = (Cloud.data pre).EndpointType) ∧
      ((Cloud.data pre).Interface = "" →
        (Cloud.data legacyWitResult).EndpointType = (Cloud.data pre).EndpointType) :=
  C9_interface_cleared {} envEmpty (.ok (.parsed (some [("one", legacyWitCloud)])))
    (.ok (.parsed none)) (.ok (.parsed none)) legacyWitResult rfl

/-- C10: when no cloud name was determined, the primary document does not
have exactly one entry, and the secure overlay has exactly one entry,
GetCloudFromYAML selects that sole secure-overlay entry and succeeds with
it (after the usual final defaulting and normalisation). -/
theorem C10_secure_single_entry (opts : ClientOpts) (e : Env) (p s pub : FindRes)
    (clouds : CloudMap) (k : String) (v : Cloud)
    (hname : determineCloudName opts e = "")
    (hp : LoadCloudsYAML p = .ok clouds)
    (hlen : mapLen clouds ≠ 1)
    (hs : LoadSecureCloudsYAML s = .ok (some [(k, v)]))
    (hk : k ≠ "") :
    GetCloudFromYAML opts e p s pub = finalizeCloud opts "" (some v) ∧
    ∃ c, GetCloudFromYAML opts e p s pub = .ok c := by
  have hsel : selectFromPrimary clouds "" = .ok none := by
    simp [selectFromPrimary, hlen]
  have hkk : ("" == k) = false := beq_eq_false_iff_ne.mpr (Ne.symm hk)
  have hsec : applySecure s "" none = .ok (some v) := by
    unfold applySecure
    rw [hs]
    dsimp only
    simp [List.lookup, hkk, isZero_emptyCloud]
  have hafter : afterSelect opts s pub "" none = finalizeCloud opts "" (some v) := by
    simp only [afterSelect, show applyProfile pub none = .ok none from rfl, hsec]
  have hmain : GetCloudFromYAML opts e p s pub = finalizeCloud opts "" (some v) := by
    simp only [GetCloudFromYAML, hp, hname, hsel, hafter]
  obtain ⟨c, hc, _⟩ := finalizeCloud_some_ok opts "" v
  exact ⟨hmain, c, hmain ▸ hc⟩

def soloWitCloud : Cloud :=
  Cloud.mk { Cloud := "solo", AuthInfo := some { AuthURL := "https://u/v3" } }

/-- Witness for C10 at a concrete empty primary document and single-entry
secure document. -/
theorem C10_secure_single_entry_witness :
    GetCloudFromYAML {} envEmpty (.ok (.parsed (some [])))
      (.ok (.parsed (some [("solo", soloWitCloud)]))) (.ok (.parsed none)) =
      finalizeCloud {} "" (some soloWitCloud) ∧
    ∃ c, GetCloudFromYAML {} envEmpty (.ok (.parsed (some [])))
      (.ok (.parsed (some [("solo", soloWitCloud)]))) (.ok (.parsed none)) = .ok c :=
  C10_secure_single_entry {} envEmpty (.ok (.parsed (some [])))
    (.ok (.parsed (some [("solo", soloWitCloud)]))) (.ok (.parsed none))
    (some []) "solo" soloWitCloud rfl rfl (by decide) rfl (by decide)

/-- C7: a file-not-found condition for the optional secure or public
document is swallowed (the load returns the empty nil map, and resolution
behaves exactly as with an empty document), whereas any failure to load
the primary document — including file-not-found — makes GetCloudFromYAML
return an error. -/
theorem C7_optional_files (p s pub : FindRes) (opts : ClientOpts) (e : Env) :
    LoadSecureCloudsYAML (.error .notExist) = .ok none ∧
    LoadPublicCloudsYAML (.error .notExist) = .ok none ∧
    (∀ fe, LoadCloudsYAML (.error fe) = .error (.fileErr fe)) ∧
    (∀ le, LoadCloudsYAML p = .error le →
      GetCloudFromYAML opts e p s pub = .error (.loadPrimary le)) ∧
    GetCloudFromYAML opts e p (.error .notExist) pub =
      GetCloudFromYAML opts e p (.ok (.parsed none)) pub ∧
    GetCloudFromYAML opts e p s (.error .notExist) =
      GetCloudFromYAML opts e p s (.ok (.parsed none)) := by
  refine ⟨rfl, rfl, fun fe => rfl, ?_, ?_, ?_⟩
  · intro le h
    simp [GetCloudFromYAML, h]
  · exact GetCloudFromYAML_ext opts e p (.error .notExist) (.ok (.parsed none))
      pub pub rfl rfl
  · exact GetCloudFromYAML_ext opts e p s s (.error .notExist)
      (.ok (.parsed none)) rfl rfl

/-- Witness for C7 at a concrete failing primary document. -/
theorem C7_optional_files_witness :
    GetCloudFromYAML {} envEmpty (.error .ioError) (.ok (.parsed none))
      (.ok (.parsed none)) = .error (.loadPrimary (.fileErr .ioError)) :=
  (C7_optional_files (.error .ioError) (.ok (.parsed none)) (.ok (.parsed none))
    {} envEmpty).2.2.2.1 (.fileErr .ioError) rfl

def verC3Cloud : Cloud := Cloud.mk { IdentityAPIVersion := "2.0" }

def verC3Env : Env := envOf [("OS_IDENTITY_API_VERSION", "3")]

/-- C3 counterexample: the claim says the explicit IdentityAPIVersion field
wins over the IDENTITY_API_VERSION environment variable; at this input the
field is "2.0" and the variable "3", and determineIdentityAPI returns the
variable's value, not the field's. -/
theorem C3_counterexample :
    (Cloud.data verC3Cloud).IdentityAPIVersion = "2.0" ∧
    Getenv verC3Env "OS_IDENTITY_API_VERSION" = "3" ∧
    determineIdentityAPI verC3Cloud {} verC3Env = "3" ∧
    determineIdentityAPI verC3Cloud {} verC3Env ≠
      (Cloud.data verC3Cloud).IdentityAPIVersion :=
  ⟨rfl, rfl, rfl, by decide⟩

/-- C3 (amended): the identity API version is determined with the
environment variable winning over the explicit field, then — only when
both are empty — URL-substring inference ("v3" wins over "v2.0" when both
occur), then auth-type inference, then the default "3". -/
theorem C3_identity_api_precedence (cloud : Cloud) (opts : ClientOpts) (e : Env) :
    (Getenv e (envPfxOf opts ++ "IDENTITY_API_VERSION") ≠ "" →
      determineIdentityAPI cloud opts e =
        Getenv e (envPfxOf opts ++ "IDENTITY_API_VERSION")) ∧
    (Getenv e (envPfxOf opts ++ "IDENTITY_API_VERSION") = "" →
      (Cloud.data cloud).IdentityAPIVersion ≠ "" →
      determineIdentityAPI cloud opts e = (Cloud.data cloud).IdentityAPIVersion) ∧
    (Getenv e (envPfxOf opts ++ "IDENTITY_API_VERSION") = "" →
      (Cloud.data cloud).IdentityAPIVersion = "" →
      urlInferred cloud ≠ "" →
      determineIdentityAPI cloud opts e = urlInferred cloud) ∧
    (∀ ai, (Cloud.data cloud).AuthInfo = some ai →
      (strContains ai.AuthURL "v3" = true → urlInferred cloud = "3") ∧
      (strContains ai.AuthURL "v3" = false → strContains ai.AuthURL "v2.0" = true →
        urlInferred cloud = "2.0")) ∧
    (Getenv e (envPfxOf opts ++ "IDENTITY_API_VERSION") = "" →
      (Cloud.data cloud).IdentityAPIVersion = "" →
      urlInferred cloud = "" →
      authTypeInferred (Cloud.data cloud).AuthType ≠ "" →
      determineIdentityAPI cloud opts e =
        authTypeInferred (Cloud.data cloud).AuthType) ∧
    (Getenv e (envPfxOf opts ++ "IDENTITY_API_VERSION") = "" →
      (Cloud.data cloud).IdentityAPIVersion = "" →
      urlInferred cloud = "" →
      authTypeInferred (Cloud.data cloud).AuthType = "" →
      determineIdentityAPI cloud opts e = "3") := by
  refine ⟨?_, ?_, ?_, ?_, ?_, ?_⟩
  · intro h1
    simp [determineIdentityAPI, h1]
  · intro h1 h2
    simp [determineIdentityAPI, h1, h2]
  · intro h1 h2 h3
    simp [determineIdentityAPI, h1, h2, h3]
  · intro ai hai
    constructor
    · intro h1
      simp [urlInferred, hai, h1]
    · intro h1 h2
      simp [urlInferred, hai, h1, h2]
  · intro h1 h2 h3 h4
    simp [determineIdentityAPI, h1, h2, h3, h4]
  · intro h1 h2 h3 h4
    simp [determineIdentityAPI, h1, h2, h3, h4]

/-- Witness for C3's amended precedence at the counterexample's input. -/
theorem C3_identity_api_precedence_witness :
    determineIdentityAPI verC3Cloud {} verC3Env =
      Getenv verC3Env (envPfxOf {} ++ "IDENTITY_API_VERSION") :=
  (C3_identity_api_precedence verC3Cloud {} verC3Env).1 (by decide)

def noAuthOpts : ClientOpts := { AuthInfo := some {} }

def v2OnlyEnv : Env := envOf [("OS_IDENTITY_API_VERSION", "2.0")]

/-- C4 counterexample: the claim says both the v2 and the v3 paths fail
with a missing-input error when the identity endpoint stays empty, and
that a successful result always has a non-empty IdentityEndpoint; at this
input (the version forced to "2.0", every other setting empty) the call
succeeds and the returned options have an empty IdentityEndpoint. -/
theorem C4_counterexample :
    AuthOptions noAuthOpts v2OnlyEnv (.ok (.parsed none)) (.ok (.parsed none))
      (.ok (.parsed none)) = .ok { IdentityEndpoint := "", Scope := none } ∧
    ({ IdentityEndpoint := "", Scope := none } :
      gophercloud.AuthOptions).IdentityEndpoint = "" :=
  ⟨rfl, rfl⟩

/-- C4 (amended): only the v3 path enforces the mandatory identity
endpoint: v3auth fails with the missing-input error for auth_url exactly
when the endpoint stays empty after merging and environment fallback, and
a successful v3 result has a non-empty IdentityEndpoint; v2auth always
succeeds, copying the (possibly empty) merged endpoint unchecked. -/
theorem C4_missing_auth_url (cloud : Cloud) (opts : ClientOpts) (e : Env) :
    (∀ ao, v3auth cloud opts e = .ok ao → ao.IdentityEndpoint ≠ "") ∧
    (envFallback (authInfoOf cloud).AuthURL
        (Getenv e (envPfxOf opts ++ "AUTH_URL")) = "" →
      v3auth cloud opts e = .error (.missingInput "auth_url")) ∧
    (∃ ao, v2auth cloud opts e = .ok ao ∧
      ao.IdentityEndpoint = envFallback (authInfoOf cloud).AuthURL
        (Getenv e (envPfxOf opts ++ "AUTH_URL"))) := by
  refine ⟨?_, ?_, ?_⟩
  · intro ao h
    simp only [v3auth] at h
    split at h
    · exact Except.noConfusion h
    · next hcond =>
      have h2 := Except.ok.inj h
      subst h2
      exact hcond
  · intro h
    have hurl : (v3BuildAO (Cloud.data cloud).AuthType
        (v3ScopeAndInfo (v3MergedAuthInfo cloud opts e)).1
        (v3ScopeAndInfo (v3MergedAuthInfo cloud opts e)).2).IdentityEndpoint = "" := by
      rw [v3BuildAO_endpoint, v3ScopeAndInfo_AuthURL, v3MergedAuthInfo_AuthURL]
      exact h
    simp only [v3auth]
    rw [if_pos hurl]
  · exact ⟨_, rfl, rfl⟩

/-- Witness for C4's amended statement at a concrete all-empty input. -/
theorem C4_missing_auth_url_witness :
    v3auth (Cloud.mk {}) {} envEmpty = .error (.missingInput "auth_url") :=
  (C4_missing_auth_url (Cloud.mk {}) {} envEmpty).2.1 rfl

theorem v3BuildAO_token_clears (t : String) (s : gophercloud.AuthScope)
    (ai : AuthInfo)
    (htok : strContains t "token" = true ∨ (v3BuildAO t s ai).TokenID ≠ "") :
    (v3BuildAO t s ai).Username = "" ∧ (v3BuildAO t s ai).Password = "" ∧
    (v3BuildAO t s ai).UserID = "" ∧ (v3BuildAO t s ai).DomainID = "" ∧
    (v3BuildAO t s ai).DomainName = "" := by
  rw [v3BuildAO_TokenID] at htok
  by_cases hcond : (strContains t "token" || ai.Token != "") = true
  · simp [v3BuildAO, hcond]
  · have hc2 : (strContains t "token" || ai.Token != "") = true := by
      rcases htok with h1 | h1
      · simp [h1]
      · simp [bne_iff_ne, h1]
    exact absurd hc2 hcond

/-- C5: when the declared auth-type string contains "token" or the token
value is non-empty after all merging and environment fallback, the options
v3auth returns have Username, Password, UserID, DomainID and DomainName
all cleared, whatever the source documents or environment set. -/
theorem C5_token_exclusive (cloud : Cloud) (opts : ClientOpts) (e : Env)
    (ao : gophercloud.AuthOptions) (h : v3auth cloud opts e = .ok ao)
    (htok : strContains (Cloud.data cloud).AuthType "token" = true ∨
      ao.TokenID ≠ "") :
    ao.Username = "" ∧ ao.Password = "" ∧ ao.UserID = "" ∧
    ao.DomainID = "" ∧ ao.DomainName = "" := by
  have hao := v3auth_ok_shape cloud opts e ao h
  subst hao
  exact v3BuildAO_token_clears _ _ _ htok

def tokenWitCloud : Cloud :=
  Cloud.mk {
    AuthType := "v3token"
    AuthInfo := some { AuthURL := "https://h/v3", Token := "tok", Username := "u" } }

def tokenWitAO : gophercloud.AuthOptions :=
  { IdentityEndpoint := "https://h/v3", TokenID := "tok", Scope := some {} }

/-- Witness for C5 at a concrete token-typed cloud entry whose username is
set in the source document. -/
theorem C5_token_exclusive_witness :
    tokenWitAO.Username = "" ∧ tokenWitAO.Password = "" ∧
    tokenWitAO.UserID = "" ∧ tokenWitAO.DomainID = "" ∧
    tokenWitAO.DomainName = "" :=
  C5_token_exclusive tokenWitCloud {} envEmpty tokenWitAO rfl (Or.inl (by decide))

/-- C6: with application-credential auth (any of the credential triple
set after merging and environment fallback), the scope v3auth builds has
no project, domain or system field populated, the only possible failure is
the missing auth_url (ProjectID / ProjectName are not required), and
domain defaulting is still applied: UserDomainID / ProjectDomainID are
filled from a bare DomainID, DomainName (names to the name fields), or
DefaultDomain when unset. -/
theorem C6_appcred_scope (cloud : Cloud) (opts : ClientOpts) (e : Env)
    (happ : isApplicationCredential (v3MergedAuthInfo cloud opts e) = true) :
    (v3ScopeAndInfo (v3MergedAuthInfo cloud opts e)).1 =
      ({} : gophercloud.AuthScope) ∧
    (v3ScopeAndInfo (v3MergedAuthInfo cloud opts e)).2 =
      setDomainIfNeeded (v3MergedAuthInfo cloud opts e) ∧
    (∀ ao, v3auth cloud opts e = .ok ao →
      ao.Scope = some ({} : gophercloud.AuthScope)) ∧
    (∀ err, v3auth cloud opts e = .error err → err = .missingInput "auth_url") ∧
    ((v3MergedAuthInfo cloud opts e).DomainID ≠ "" →
      (v3MergedAuthInfo cloud opts e).UserDomainID = "" →
      (setDomainIfNeeded (v3MergedAuthInfo cloud opts e)).UserDomainID =
        (v3MergedAuthInfo cloud opts e).DomainID) ∧
    ((v3MergedAuthInfo cloud opts e).DomainID ≠ "" →
      (v3MergedAuthInfo cloud opts e).ProjectDomainID = "" →
      (setDomainIfNeeded (v3MergedAuthInfo cloud opts e)).ProjectDomainID =
        (v3MergedAuthInfo cloud opts e).DomainID) ∧
    ((v3MergedAuthInfo cloud opts e).DomainName ≠ "" →
      (v3MergedAuthInfo cloud opts e).UserDomainName = "" →
      (setDomainIfNeeded (v3MergedAuthInfo cloud opts e)).UserDomainName =
        (v3MergedAuthInfo cloud opts e).DomainName) ∧
    ((v3MergedAuthInfo cloud opts e).DomainName ≠ "" →
      (v3MergedAuthInfo cloud opts e).ProjectDomainName = "" →
      (setDomainIfNeeded (v3MergedAuthInfo cloud opts e)).ProjectDomainName =
        (v3MergedAuthInfo cloud opts e).DomainName) ∧
    ((v3MergedAuthInfo cloud opts e).DomainID = "" →
      (v3MergedAuthInfo cloud opts e).DomainName = "" →
      (v3MergedAuthInfo cloud opts e).DefaultDomain ≠ "" →
      (v3MergedAuthInfo cloud opts e).UserDomainID = "" →
      (v3MergedAuthInfo cloud opts e).UserDomainName = "" →
      (setDomainIfNeeded (v3MergedAuthInfo cloud opts e)).UserDomainID =
        (v3MergedAuthInfo cloud opts e).DefaultDomain) ∧
    ((v3MergedAuthInfo cloud opts e).DomainID = "" →
      (v3MergedAuthInfo cloud opts e).DomainName = "" →
      (v3MergedAuthInfo cloud opts e).DefaultDomain ≠ "" →
      (v3MergedAuthInfo cloud opts e).ProjectDomainID = "" →
      (v3MergedAuthInfo cloud opts e).ProjectDomainName = "" →
      (setDomainIfNeeded (v3MergedAuthInfo cloud opts e)).ProjectDomainID =
        (v3MergedAuthInfo cloud opts e).DefaultDomain) := by
  have hscope : (v3ScopeAndInfo (v3MergedAuthInfo cloud opts e)).1 =
      ({} : gophercloud.AuthScope) := by
    simp [v3ScopeAndInfo, happ]
  refine ⟨hscope, ?_, ?_, ?_, ?_, ?_, ?_, ?_, ?_, ?_⟩
  · simp [v3ScopeAndInfo, happ]
  · intro ao h
    have hao := v3auth_ok_shape cloud opts e ao h
    subst hao
    rw [v3BuildAO_Scope, hscope]
  · exact fun err h => v3auth_error_shape cloud opts e err h
  · exact setDomainIfNeeded_fill_user_id _
  · exact setDomainIfNeeded_fill_proj_id _
  · exact setDomainIfNeeded_fill_user_name _
  · exact setDomainIfNeeded_fill_proj_name _
  · exact setDomainIfNeeded_fill_user_default _
  · exact setDomainIfNeeded_fill_proj_default _

def appCredWitCloud : Cloud :=
  Cloud.mk {
    AuthInfo := some {
      AuthURL := "https://h/v3"
      ApplicationCredentialID := "acid"
      ApplicationCredentialSecret := "acsec"
      DomainName := "dom" } }

/-- Witness for C6 at a concrete application-credential cloud entry with a
bare domain name. -/
theorem C6_appcred_scope_witness :
    (v3ScopeAndInfo (v3MergedAuthInfo appCredWitCloud {} envEmpty)).1 =
      ({} : gophercloud.AuthScope) ∧
    (setDomainIfNeeded (v3MergedAuthInfo appCredWitCloud {} envEmpty)).UserDomainName =
      (v3MergedAuthInfo appCredWitCloud {} envEmpty).DomainName := by
  have h := C6_appcred_scope appCredWitCloud {} envEmpty (by decide)
  exact ⟨h.1, h.2.2.2.2.2.2.1 (by decide) rfl⟩
